import Mathlib

/-!
Verification of the multi-agent research workflow (src/agents.py and
src/multi_agent_system.py).

The Python code is shallowly embedded: Python strings are Lean `String`s,
the handful of `str` methods the code uses (`split('\n')`, `strip()`,
`lower()`, `startswith`, substring membership `in`, `len`, truthiness,
indexing `[0]`) are modelled as executable functions on the underlying
character list, Python dicts holding agent results are a flat record with
optional fields, and the two external collaborators (retrieval and
generation) are oracles: a value of `Except String α` is what one call to
the collaborator does — return a value or raise with a description.
-/

/-- Python `str` truthiness: a string is truthy iff non-empty. -/
def pyTruthy (s : String) : Bool := !s.data.isEmpty

/-- Python `sub in s` substring membership. -/
def pyContains (s pat : String) : Bool := decide (pat.data <:+: s.data)

/-- Python `s.startswith(pre)`. -/
def pyStartsWith (s pre : String) : Bool := decide (pre.data <+: s.data)

/-- Python `len(s)`. -/
def pyLen (s : String) : Nat := s.data.length

/-- Python `s.lower()` (character-wise lowering). -/
def pyLower (s : String) : String := ⟨s.data.map Char.toLower⟩

/-- Whitespace test used by `str.strip()` (space, tab, CR, LF; Python
also strips `\v`, `\f` and Unicode spaces, which play no role in any of
the analysed conditions). -/
def isSp (c : Char) : Bool := c.isWhitespace

/-- Python `s.strip()` on the character list: drop whitespace from both ends. -/
def stripData (l : List Char) : List Char := (l.dropWhile isSp).rdropWhile isSp

/-- Python `s.strip()`. -/
def pyStrip (s : String) : String := ⟨stripData s.data⟩

/-- Python `s[0].isdigit()` for a non-empty string (`false` on empty,
the callers all guard the access; see the checked variant further down). -/
def headIsDigit (s : String) : Bool :=
  match s.data with
  | [] => false
  | c :: _ => c.isDigit

/-- Python `s.split('\n')` on the character list. -/
def splitNl : List Char → List (List Char)
  | [] => [[]]
  | c :: cs =>
    if c = '\n' then [] :: splitNl cs
    else
      match splitNl cs with
      | [] => [[c]]
      | l :: ls => (c :: l) :: ls

/-- Python `s.split('\n')`. -/
def pySplitLines (s : String) : List String := (splitNl s.data).map String.mk

/-- Python `'\n'.join(parts)` on character lists. -/
def joinNl : List (List Char) → List Char
  | [] => []
  | [l] => l
  | l :: l' :: ls => l ++ '\n' :: joinNl (l' :: ls)

/-- Python `'\n'.join(parts)`. -/
def pyJoinLines (L : List String) : String := ⟨joinNl (L.map String.data)⟩

/-- A citation record `{source, page}` attached to retrieved context. -/
structure Citation where
  source : String
  page : Option String
deriving Repr, DecidableEq

/-- What one call to the Retrieval Collaborator produces:
`{answer, sources}` (from `rag_pipeline.answer_question`). -/
structure Retrieval where
  answer : String
  sources : List Citation
deriving Repr, DecidableEq

/-- Behaviour of one retrieval call: a result, or a raised exception
with its description.  `retrieve_context` is called outside the
per-agent `try`, so a raise here propagates out of `process`. -/
abbrev RetB := Except String Retrieval

/-- Behaviour of one generation call (`self.llm.invoke`): the generated
text, or a raised exception with its description.  The call sits inside
the per-agent `try`, so a raise here is caught by the agent. -/
abbrev GenB := Except String String

/-- The universal hand-off dict returned by every agent's `process`.
Keys a given agent does not set are `none` / `[]` (absent in Python).
The Formatter's echo of the whole upstream dicts (`"researcher": ...`,
etc.) and its `"query"` key are not modelled; no claim reads them. -/
structure AgentResult where
  agent : String := ""
  status : String := ""
  message : Option String := none
  analysis : Option String := none
  findings : List String := []
  critique : Option String := none
  researcher_analysis : Option String := none
  strengths : List String := []
  weaknesses : List String := []
  synthesis : Option String := none
  hypotheses : List String := []
  insights : List String := []
  gap_analysis : Option String := none
  gaps : List String := []
  questions : List String := []
  report : Option String := none
  sources : List Citation := []
  num_sources : Option Nat := none
deriving Repr, DecidableEq

namespace ResearcherAgent

/-- The comprehension filter of `_extract_findings`: the stripped line is
non-empty and starts with `-` or a digit. -/
def findingsKeep (t : String) : Bool :=
  pyTruthy t && (pyStartsWith t "-" || headIsDigit t)

/-- `ResearcherAgent._extract_findings`: keep the stripped lines that are
non-empty and start with `-` or a digit; cap at 10. -/
def extract_findings (analysis : String) : List String :=
  (((pySplitLines analysis).map pyStrip).filter findingsKeep).take 10

/-- `ResearcherAgent.process`.  The orchestrator always passes
`{"query": query}` as `input_data`, so the retrieval query is `query`.
Returns the result dict together with the number of generation calls
made; raises (`.error`) when the retrieval call raises. -/
def process (query : String) (ret : RetB) (gen : GenB) :
    Except String (AgentResult × Nat) :=
  match ret with
  | .error e => .error e
  | .ok ctx =>
    if ctx.sources.isEmpty then
      .ok ({ agent := "RESEARCHER", status := "error",
             message := some "No relevant documents found",
             findings := [], sources := [] }, 0)
    else
      match gen with
      | .ok analysis =>
          .ok ({ agent := "RESEARCHER", status := "success",
                 analysis := some analysis,
                 findings := extract_findings analysis,
                 sources := ctx.sources,
                 num_sources := some ctx.sources.length }, 1)
      | .error e =>
          .ok ({ agent := "RESEARCHER", status := "error",
                 message := some e, findings := [], sources := [] }, 1)

end ResearcherAgent

namespace ReviewerAgent

/-- The header test of `ReviewerAgent._extract_section`:
`section.lower() in line.lower() and (('-' in line or line[0].isdigit()) if line.strip() else False)`. -/
def headerMatch (sec line : String) : Bool :=
  pyContains (pyLower line) (pyLower sec) &&
    (if pyTruthy (pyStrip line) then pyContains line "-" || headIsDigit line
     else false)

/-- The collection test: `line.strip() and (line.strip().startswith('-')
or (line.strip() and line.strip()[0].isdigit()))`. -/
def bulletLine (line : String) : Bool :=
  pyTruthy (pyStrip line) &&
    (pyStartsWith (pyStrip line) "-" ||
      (pyTruthy (pyStrip line) && headIsDigit (pyStrip line)))

/-- The section-end test: `line.strip() and not line.strip()[0].isdigit()
and '-' not in line and len(line.strip()) > 50`. -/
def breakLine (line : String) : Bool :=
  pyTruthy (pyStrip line) && !headIsDigit (pyStrip line) &&
    !pyContains line "-" && decide (pyLen (pyStrip line) > 50)

/-- The `for line in lines` loop of `_extract_section`, with the
`in_section` flag and the collected lines as explicit state. -/
def sectionLoop (sec : String) : List String → Bool → List String → List String
  | [], _, acc => acc
  | line :: rest, inSec, acc =>
    let inSec' := inSec || headerMatch sec line
    if inSec' then
      if bulletLine line then sectionLoop sec rest inSec' (acc ++ [pyStrip line])
      else if breakLine line then acc
      else sectionLoop sec rest inSec' acc
    else sectionLoop sec rest inSec' acc

/-- `ReviewerAgent._extract_section`: collect the section's bullet lines,
cap at 5. -/
def extract_section (text sec : String) : List String :=
  (sectionLoop sec (pySplitLines text) false []).take 5

/-- `ReviewerAgent.process`: short-circuits unless the input's status is
`success`; otherwise retrieves (may raise), then generates (caught). -/
def process (input : AgentResult) (query : String) (ret : RetB) (gen : GenB) :
    Except String (AgentResult × Nat) :=
  if input.status ≠ "success" then
    .ok ({ agent := "REVIEWER", status := "error",
           message := some "Invalid input from previous agent",
           critique := some "" }, 0)
  else
    match ret with
    | .error e => .error e
    | .ok ctx =>
      match gen with
      | .ok critique =>
          .ok ({ agent := "REVIEWER", status := "success",
                 critique := some critique,
                 researcher_analysis := some (input.analysis.getD ""),
                 strengths := extract_section critique "strengths",
                 weaknesses := extract_section critique "weaknesses",
                 sources := input.sources ++ ctx.sources }, 1)
      | .error e =>
          .ok ({ agent := "REVIEWER", status := "error",
                 message := some e, critique := some "" }, 1)

end ReviewerAgent

namespace SynthesizerAgent

/-- Keyword test of `_extract_hypotheses`:
`'hypothesis' in line.lower() or 'h1' in line.lower() or 'h2' in line.lower() or 'h3' in line.lower()`. -/
def hypKeyword (line : String) : Bool :=
  pyContains (pyLower line) "hypothesis" || pyContains (pyLower line) "h1" ||
    pyContains (pyLower line) "h2" || pyContains (pyLower line) "h3"

/-- The full keep test of `_extract_hypotheses` (keyword, then the nested
`if line.strip() and len(line.strip()) > 20`). -/
def hypKeep (line : String) : Bool :=
  hypKeyword line && (pyTruthy (pyStrip line) && decide (pyLen (pyStrip line) > 20))

/-- The `for` loop of `_extract_hypotheses`. -/
def hypLoop : List String → List String
  | [] => []
  | line :: rest =>
    if hypKeep line then pyStrip line :: hypLoop rest
    else hypLoop rest

/-- `SynthesizerAgent._extract_hypotheses`: cap at 5. -/
def extract_hypotheses (synthesis : String) : List String :=
  (hypLoop (pySplitLines synthesis)).take 5

/-- Keyword test of `_extract_insights`. -/
def insKeyword (line : String) : Bool :=
  pyContains (pyLower line) "insight" || pyContains (pyLower line) "pattern" ||
    pyContains (pyLower line) "relationship"

/-- The full keep test of `_extract_insights`. -/
def insKeep (line : String) : Bool :=
  (insKeyword line && pyTruthy (pyStrip line)) && decide (pyLen (pyStrip line) > 30)

/-- The `for` loop of `_extract_insights`. -/
def insLoop : List String → List String
  | [] => []
  | line :: rest =>
    if insKeep line then pyStrip line :: insLoop rest
    else insLoop rest

/-- `SynthesizerAgent._extract_insights`: cap at 5. -/
def extract_insights (synthesis : String) : List String :=
  (insLoop (pySplitLines synthesis)).take 5

/-- `SynthesizerAgent.process`. -/
def process (input : AgentResult) (query : String) (ret : RetB) (gen : GenB) :
    Except String (AgentResult × Nat) :=
  if input.status ≠ "success" then
    .ok ({ agent := "SYNTHESIZER", status := "error",
           message := some "Invalid input from previous agent",
           synthesis := some "", hypotheses := [] }, 0)
  else
    match ret with
    | .error e => .error e
    | .ok _ =>
      match gen with
      | .ok synthesis =>
          .ok ({ agent := "SYNTHESIZER", status := "success",
                 synthesis := some synthesis,
                 hypotheses := extract_hypotheses synthesis,
                 insights := extract_insights synthesis,
                 researcher_analysis := some (input.researcher_analysis.getD ""),
                 critique := some (input.critique.getD "") }, 1)
      | .error e =>
          .ok ({ agent := "SYNTHESIZER", status := "error",
                 message := some e, synthesis := some "", hypotheses := [] }, 1)

end SynthesizerAgent

namespace QuestionerAgent

/-- The keep test of `_extract_gaps`: `'gap' in line.lower() and
line.strip() and len(line.strip()) > 20`. -/
def gapKeep (line : String) : Bool :=
  pyContains (pyLower line) "gap" && pyTruthy (pyStrip line) &&
    decide (pyLen (pyStrip line) > 20)

/-- The `for` loop of `_extract_gaps`. -/
def gapLoop : List String → List String
  | [] => []
  | line :: rest =>
    if gapKeep line then pyStrip line :: gapLoop rest
    else gapLoop rest

/-- `QuestionerAgent._extract_gaps`: cap at 5. -/
def extract_gaps (text : String) : List String :=
  (gapLoop (pySplitLines text)).take 5

/-- The keep test of `_extract_questions`: `'?' in line and line.strip()
and len(line.strip()) > 10`. -/
def questionKeep (line : String) : Bool :=
  pyContains line "?" && pyTruthy (pyStrip line) &&
    decide (pyLen (pyStrip line) > 10)

/-- The `for` loop of `_extract_questions`. -/
def questionLoop : List String → List String
  | [] => []
  | line :: rest =>
    if questionKeep line then pyStrip line :: questionLoop rest
    else questionLoop rest

/-- `QuestionerAgent._extract_questions`: cap at 7. -/
def extract_questions (text : String) : List String :=
  (questionLoop (pySplitLines text)).take 7

/-- `QuestionerAgent.process`. -/
def process (input : AgentResult) (query : String) (ret : RetB) (gen : GenB) :
    Except String (AgentResult × Nat) :=
  if input.status ≠ "success" then
    .ok ({ agent := "QUESTIONER", status := "error",
           message := some "Invalid input from previous agent",
           gaps := [], questions := [] }, 0)
  else
    match ret with
    | .error e => .error e
    | .ok _ =>
      match gen with
      | .ok t =>
          .ok ({ agent := "QUESTIONER", status := "success",
                 gap_analysis := some t,
                 gaps := extract_gaps t,
                 questions := extract_questions t,
                 synthesis := some (input.synthesis.getD ""),
                 hypotheses := input.hypotheses }, 1)
      | .error e =>
          .ok ({ agent := "QUESTIONER", status := "error",
                 message := some e, gaps := [], questions := [] }, 1)

end QuestionerAgent

/-- One `{step, agent, status}` entry of the orchestrator's execution log. -/
structure WorkflowEntry where
  step : Nat
  agent : String
  status : String
deriving Repr, DecidableEq

/-- The orchestrator's `workflow_data` dict.  The per-stage keys start as
empty dicts in Python; `none` models "still the empty dict". -/
structure WorkflowData where
  query : String := ""
  workflow : List WorkflowEntry := []
  researcher : Option AgentResult := none
  reviewer : Option AgentResult := none
  synthesizer : Option AgentResult := none
  questioner : Option AgentResult := none
  formatter : Option AgentResult := none
  status : String := "in_progress"
  error : Option String := none
  report : Option String := none
deriving Repr, DecidableEq

namespace FormatterAgent

/-- `FormatterAgent.process`: reads the whole workflow dict, never checks
any status, performs no retrieval, and always invokes generation.  It
cannot raise (the generation call is inside its `try`), so it returns a
plain pair. -/
def process (input : WorkflowData) (query : String) (gen : GenB) :
    AgentResult × Nat :=
  let researcher_data := input.researcher.getD {}
  match gen with
  | .ok report =>
      ({ agent := "FORMATTER", status := "success",
         report := some report,
         sources := researcher_data.sources }, 1)
  | .error e =>
      ({ agent := "FORMATTER", status := "error",
         message := some e, report := some "" }, 1)

end FormatterAgent

/-- The per-stage collaborator behaviours of one workflow run: what each
agent's retrieval call and generation call would do if made. -/
structure Behaviors where
  retResearcher : RetB
  genResearcher : GenB
  retReviewer : RetB
  genReviewer : GenB
  retSynthesizer : RetB
  genSynthesizer : GenB
  retQuestioner : RetB
  genQuestioner : GenB
  genFormatter : GenB

/-- The failure message the orchestrator stores when stage `name`
reports a non-success status with message `m`. -/
def failMsg (name : String) (r : AgentResult) : String :=
  name ++ " agent failed: " ++ r.message.getD "Unknown error"

namespace MultiAgentResearchSystem

/-- `MultiAgentResearchSystem.run_research_workflow`.  Python's single
top-level `except` is inlined at each point where a stage's `process`
can raise: the handler mutates the workflow dict as it stands at that
moment, which is exactly the partially-updated record here. -/
def run_research_workflow (query : String) (b : Behaviors) : WorkflowData :=
  let w0 : WorkflowData := { query := query }
  match ResearcherAgent.process query b.retResearcher b.genResearcher with
  | .error e => { w0 with status := "error", error := some e }
  | .ok (rout, _) =>
    let w1 := { w0 with researcher := some rout,
                        workflow := w0.workflow ++ [WorkflowEntry.mk 1 "RESEARCHER" rout.status] }
    if rout.status ≠ "success" then
      { w1 with status := "error", error := some (failMsg "Researcher" rout) }
    else
      match ReviewerAgent.process rout query b.retReviewer b.genReviewer with
      | .error e => { w1 with status := "error", error := some e }
      | .ok (vout, _) =>
        let w2 := { w1 with reviewer := some vout,
                            workflow := w1.workflow ++ [WorkflowEntry.mk 2 "REVIEWER" vout.status] }
        if vout.status ≠ "success" then
          { w2 with status := "error", error := some (failMsg "Reviewer" vout) }
        else
          match SynthesizerAgent.process vout query b.retSynthesizer b.genSynthesizer with
          | .error e => { w2 with status := "error", error := some e }
          | .ok (sout, _) =>
            let w3 := { w2 with synthesizer := some sout,
                                workflow := w2.workflow ++ [WorkflowEntry.mk 3 "SYNTHESIZER" sout.status] }
            if sout.status ≠ "success" then
              { w3 with status := "error", error := some (failMsg "Synthesizer" sout) }
            else
              match QuestionerAgent.process sout query b.retQuestioner b.genQuestioner with
              | .error e => { w3 with status := "error", error := some e }
              | .ok (qout, _) =>
                let w4 := { w3 with questioner := some qout,
                                    workflow := w3.workflow ++ [WorkflowEntry.mk 4 "QUESTIONER" qout.status] }
                if qout.status ≠ "success" then
                  { w4 with status := "error", error := some (failMsg "Questioner" qout) }
                else
                  let (fout, _) := FormatterAgent.process w4 query b.genFormatter
                  let w5 := { w4 with formatter := some fout,
                                      workflow := w4.workflow ++ [WorkflowEntry.mk 5 "FORMATTER" fout.status] }
                  if fout.status ≠ "success" then
                    { w5 with status := "error", error := some (failMsg "Formatter" fout) }
                  else
                    { w5 with status := "success", report := some (fout.report.getD "") }

end MultiAgentResearchSystem

example : ResearcherAgent.extract_findings "- a\nplain\n1. b\n  - c" = ["- a", "1. b", "- c"] := by decide

example : SynthesizerAgent.extract_hypotheses "H1: aaaaaaaaaaaaaaaaaaaaaaa\nshort H2\nno keyword here at all" = ["H1: aaaaaaaaaaaaaaaaaaaaaaa"] := by decide

example : ReviewerAgent.extract_section "- Strengths:\n- solid methodology\nWeaknesses\n- too few samples" "strengths" = ["- Strengths:", "- solid methodology", "- too few samples"] := by decide

/-- Projection: the result record of a `process` call that returned
normally (`default` record if the call raised). -/
def resOf (x : Except String (AgentResult × Nat)) : AgentResult :=
  match x with
  | .ok (r, _) => r
  | .error _ => {}

/-- Projection: how many generation calls a normally-returning `process`
call made (`0` if it raised before any assignment). -/
def callsOf (x : Except String (AgentResult × Nat)) : Nat :=
  match x with
  | .ok (_, n) => n
  | .error _ => 0

/-- C4: every extraction heuristic respects its cap, on every input:
findings ≤ 10, section lines (strengths/weaknesses) ≤ 5, hypotheses ≤ 5,
insights ≤ 5, gaps ≤ 5, questions ≤ 7. -/
theorem c4_extraction_caps (s sec : String) :
    (ResearcherAgent.extract_findings s).length ≤ 10 ∧
    (ReviewerAgent.extract_section s sec).length ≤ 5 ∧
    (SynthesizerAgent.extract_hypotheses s).length ≤ 5 ∧
    (SynthesizerAgent.extract_insights s).length ≤ 5 ∧
    (QuestionerAgent.extract_gaps s).length ≤ 5 ∧
    (QuestionerAgent.extract_questions s).length ≤ 7 :=
  ⟨List.length_take_le _ _, List.length_take_le _ _, List.length_take_le _ _,
   List.length_take_le _ _, List.length_take_le _ _, List.length_take_le _ _⟩

/-- C1 counterexample: `FormatterAgent.process` does not validate its
input's status.  On an input record whose status is `"error"` it still
invokes the Generation Collaborator (one call) and returns a `success`
result, contradicting the claim that every role except the first returns
an error without invoking generation. -/
theorem c1_counterexample :
    (FormatterAgent.process { status := "error" } "q" (Except.ok "the report")).1.status
        = "success" ∧
    (FormatterAgent.process { status := "error" } "q" (Except.ok "the report")).2 = 1 := by
  constructor <;> rfl

/-- C1 (amended): the Reviewer, Synthesizer and Questioner short-circuit:
on input whose status is not `"success"` each returns its literal error
record with zero generation calls, whatever the collaborators would do.
The Formatter performs no such check: it always makes exactly one
generation call. -/
theorem c1_short_circuit :
    (∀ (input : AgentResult) (q : String) (ret : RetB) (gen : GenB),
      input.status ≠ "success" →
        ReviewerAgent.process input q ret gen =
          .ok ({ agent := "REVIEWER", status := "error",
                 message := some "Invalid input from previous agent",
                 critique := some "" }, 0) ∧
        SynthesizerAgent.process input q ret gen =
          .ok ({ agent := "SYNTHESIZER", status := "error",
                 message := some "Invalid input from previous agent",
                 synthesis := some "", hypotheses := [] }, 0) ∧
        QuestionerAgent.process input q ret gen =
          .ok ({ agent := "QUESTIONER", status := "error",
                 message := some "Invalid input from previous agent",
                 gaps := [], questions := [] }, 0)) ∧
    (∀ (w : WorkflowData) (q : String) (gen : GenB),
      (FormatterAgent.process w q gen).2 = 1) := by
  constructor
  · intro input q ret gen h
    refine ⟨?_, ?_, ?_⟩ <;>
      simp [ReviewerAgent.process, SynthesizerAgent.process, QuestionerAgent.process, h] <;> rfl
  · intro w q gen
    cases gen <;> rfl

/-- Witness for `c1_short_circuit` at a concrete failed input. -/
theorem c1_short_circuit_witness :
    ReviewerAgent.process { status := "error" } "q"
        (Except.ok ⟨"ans", []⟩) (Except.ok "text") =
      .ok ({ agent := "REVIEWER", status := "error",
             message := some "Invalid input from previous agent",
             critique := some "" }, 0) :=
  (c1_short_circuit.1 { status := "error" } "q" (Except.ok ⟨"ans", []⟩)
    (Except.ok "text") (by decide)).1

/-- C6: on a successful Reviewer stage (input status `"success"`,
retrieval returns `ctx`, generation returns `t`), the output `sources`
is the researcher's list concatenated with the fresh retrieval's list,
in that order, so its length is the sum of the two lengths and no
deduplication happens. -/
theorem c6_citation_accumulation (input : AgentResult) (q t : String)
    (ctx : Retrieval) (h : input.status = "success") :
    (resOf (ReviewerAgent.process input q (.ok ctx) (.ok t))).sources
        = input.sources ++ ctx.sources ∧
    (resOf (ReviewerAgent.process input q (.ok ctx) (.ok t))).sources.length
        = input.sources.length + ctx.sources.length ∧
    (resOf (ReviewerAgent.process input q (.ok ctx) (.ok t))).status = "success" := by
  refine ⟨?_, ?_, ?_⟩ <;>
    simp [ReviewerAgent.process, resOf, h]

/-- Witness for `c6_citation_accumulation`: a duplicated citation is kept
twice — no deduplication. -/
theorem c6_citation_accumulation_witness :
    (resOf (ReviewerAgent.process
        { status := "success", sources := [⟨"paper.pdf", some "1"⟩] } "q"
        (.ok ⟨"ans", [⟨"paper.pdf", some "1"⟩]⟩) (.ok "crit"))).sources
      = [⟨"paper.pdf", some "1"⟩, ⟨"paper.pdf", some "1"⟩] ∧
    (resOf (ReviewerAgent.process
        { status := "success", sources := [⟨"paper.pdf", some "1"⟩] } "q"
        (.ok ⟨"ans", [⟨"paper.pdf", some "1"⟩]⟩) (.ok "crit"))).sources.length = 2 := by
  have h := c6_citation_accumulation
    { status := "success", sources := [⟨"paper.pdf", some "1"⟩] } "q" "crit"
    ⟨"ans", [⟨"paper.pdf", some "1"⟩]⟩ rfl
  exact ⟨h.1.trans rfl, h.2.1.trans rfl⟩

/-- C9 counterexample: both directions of the claimed invariant fail.
The Generation Collaborator may return the empty string: the Researcher
then reports `status = "success"` with `analysis = some ""`, an empty
mandatory payload.  And it may raise with an empty description
(Python's `str(e)` can be `""`): the Researcher then reports
`status = "error"` with `message = some ""`, an empty message. -/
theorem c9_counterexample :
    (resOf (ResearcherAgent.process "q"
        (.ok ⟨"ans", [⟨"s.pdf", none⟩]⟩) (.ok ""))).status = "success" ∧
    (resOf (ResearcherAgent.process "q"
        (.ok ⟨"ans", [⟨"s.pdf", none⟩]⟩) (.ok ""))).analysis = some "" ∧
    (resOf (ResearcherAgent.process "q"
        (.ok ⟨"ans", [⟨"s.pdf", none⟩]⟩) (.error ""))).status = "error" ∧
    (resOf (ResearcherAgent.process "q"
        (.ok ⟨"ans", [⟨"s.pdf", none⟩]⟩) (.error ""))).message = some "" := by
  refine ⟨?_, ?_, ?_, ?_⟩ <;> rfl

/-- C9 (amended): for every agent, an `error` result carries empty or
absent payload fields and a `message` holding the failure description
verbatim — `"No relevant documents found"` when the Researcher's
retrieval came back empty, `"Invalid input from previous agent"` on a
short-circuit, and the raised exception's own description (possibly the
empty string; the original claim's "non-empty" fails, see the
counterexample) when generation raised; a `success` result's mandatory
payload field equals the generated text verbatim (possibly empty — the
original claim's "non-empty" fails on empty generation output, see the
counterexample). -/
theorem c9_amended :
    (∀ (q : String) (ret : RetB) (gen : GenB),
      ((resOf (ResearcherAgent.process q ret gen)).status = "error" →
        (resOf (ResearcherAgent.process q ret gen)).analysis = none ∧
        (resOf (ResearcherAgent.process q ret gen)).findings = [] ∧
        (resOf (ResearcherAgent.process q ret gen)).sources = [] ∧
        ((∃ ctx, ret = .ok ctx ∧ ctx.sources = [] ∧
            (resOf (ResearcherAgent.process q ret gen)).message
              = some "No relevant documents found") ∨
          (∃ e, gen = .error e ∧
            (resOf (ResearcherAgent.process q ret gen)).message = some e))) ∧
      ((resOf (ResearcherAgent.process q ret gen)).status = "success" →
        ∃ t, gen = .ok t ∧ (resOf (ResearcherAgent.process q ret gen)).analysis = some t)) ∧
    (∀ (input : AgentResult) (q : String) (ret : RetB) (gen : GenB),
      ((resOf (ReviewerAgent.process input q ret gen)).status = "error" →
        (resOf (ReviewerAgent.process input q ret gen)).critique = some "" ∧
        (resOf (ReviewerAgent.process input q ret gen)).strengths = [] ∧
        (resOf (ReviewerAgent.process input q ret gen)).weaknesses = [] ∧
        ((input.status ≠ "success" ∧
            (resOf (ReviewerAgent.process input q ret gen)).message
              = some "Invalid input from previous agent") ∨
          (∃ e, gen = .error e ∧
            (resOf (ReviewerAgent.process input q ret gen)).message = some e))) ∧
      ((resOf (ReviewerAgent.process input q ret gen)).status = "success" →
        ∃ t, gen = .ok t ∧ (resOf (ReviewerAgent.process input q ret gen)).critique = some t)) ∧
    (∀ (input : AgentResult) (q : String) (ret : RetB) (gen : GenB),
      ((resOf (SynthesizerAgent.process input q ret gen)).status = "error" →
        (resOf (SynthesizerAgent.process input q ret gen)).synthesis = some "" ∧
        (resOf (SynthesizerAgent.process input q ret gen)).hypotheses = [] ∧
        (resOf (SynthesizerAgent.process input q ret gen)).insights = [] ∧
        ((input.status ≠ "success" ∧
            (resOf (SynthesizerAgent.process input q ret gen)).message
              = some "Invalid input from previous agent") ∨
          (∃ e, gen = .error e ∧
            (resOf (SynthesizerAgent.process input q ret gen)).message = some e))) ∧
      ((resOf (SynthesizerAgent.process input q ret gen)).status = "success" →
        ∃ t, gen = .ok t ∧
          (resOf (SynthesizerAgent.process input q ret gen)).synthesis = some t)) ∧
    (∀ (input : AgentResult) (q : String) (ret : RetB) (gen : GenB),
      ((resOf (QuestionerAgent.process input q ret gen)).status = "error" →
        (resOf (QuestionerAgent.process input q ret gen)).gap_analysis = none ∧
        (resOf (QuestionerAgent.process input q ret gen)).gaps = [] ∧
        (resOf (QuestionerAgent.process input q ret gen)).questions = [] ∧
        ((input.status ≠ "success" ∧
            (resOf (QuestionerAgent.process input q ret gen)).message
              = some "Invalid input from previous agent") ∨
          (∃ e, gen = .error e ∧
            (resOf (QuestionerAgent.process input q ret gen)).message = some e))) ∧
      ((resOf (QuestionerAgent.process input q ret gen)).status = "success" →
        ∃ t, gen = .ok t ∧
          (resOf (QuestionerAgent.process input q ret gen)).gap_analysis = some t)) ∧
    (∀ (w : WorkflowData) (q : String) (gen : GenB),
      (((FormatterAgent.process w q gen).1.status = "error" →
        (FormatterAgent.process w q gen).1.report = some "" ∧
        (∃ e, gen = .error e ∧
          (FormatterAgent.process w q gen).1.message = some e)) ∧
      ((FormatterAgent.process w q gen).1.status = "success" →
        ∃ t, gen = .ok t ∧ (FormatterAgent.process w q gen).1.report = some t))) := by
  refine ⟨?_, ?_, ?_, ?_, ?_⟩
  · intro q ret gen
    cases ret with
    | error e => simp [ResearcherAgent.process, resOf] <;> decide
    | ok ctx =>
      by_cases hs : ctx.sources.isEmpty
      · have hnil : ctx.sources = [] := by simpa [List.isEmpty_iff] using hs
        simp [ResearcherAgent.process, resOf, hs, hnil]
      · cases gen with
        | ok t => simp [ResearcherAgent.process, resOf, hs]
        | error e => simp [ResearcherAgent.process, resOf, hs]
  · intro input q ret gen
    by_cases hst : input.status = "success"
    · cases ret with
      | error e => simp [ReviewerAgent.process, resOf, hst] <;> decide
      | ok ctx =>
        cases gen with
        | ok t => simp [ReviewerAgent.process, resOf, hst]
        | error e => simp [ReviewerAgent.process, resOf, hst]
    · simp [ReviewerAgent.process, resOf, hst]
  · intro input q ret gen
    by_cases hst : input.status = "success"
    · cases ret with
      | error e => simp [SynthesizerAgent.process, resOf, hst] <;> decide
      | ok ctx =>
        cases gen with
        | ok t => simp [SynthesizerAgent.process, resOf, hst]
        | error e => simp [SynthesizerAgent.process, resOf, hst]
    · simp [SynthesizerAgent.process, resOf, hst]
  · intro input q ret gen
    by_cases hst : input.status = "success"
    · cases ret with
      | error e => simp [QuestionerAgent.process, resOf, hst] <;> decide
      | ok ctx =>
        cases gen with
        | ok t => simp [QuestionerAgent.process, resOf, hst]
        | error e => simp [QuestionerAgent.process, resOf, hst]
    · simp [QuestionerAgent.process, resOf, hst]
  · intro w q gen
    cases gen with
    | ok t => simp [FormatterAgent.process]
    | error e => simp [FormatterAgent.process]

/-- Witness for `c9_amended`: concrete successful Researcher call whose
payload is exactly the generated text. -/
theorem c9_amended_witness :
    (resOf (ResearcherAgent.process "q"
        (.ok ⟨"ans", [⟨"s.pdf", none⟩]⟩) (.ok "generated analysis"))).analysis
      = some "generated analysis" := by
  obtain ⟨t, ht, ha⟩ :=
    (c9_amended.1 "q" (.ok ⟨"ans", [⟨"s.pdf", none⟩]⟩) (.ok "generated analysis")).2 rfl
  cases ht
  exact ha

/-- The head of `dropWhile p l` (if any) fails `p`. -/
theorem head?_dropWhile {α} (p : α → Bool) (l : List α) (a : α)
    (h : (l.dropWhile p).head? = some a) : p a = false := by
  induction l with
  | nil => simp at h
  | cons x xs ih =>
    rw [List.dropWhile_cons] at h
    by_cases hx : p x
    · rw [if_pos hx] at h
      exact ih h
    · rw [if_neg hx] at h
      simp at h
      rw [← h]
      simpa using hx

/-- A list whose head fails `p` is unchanged by `dropWhile p`. -/
theorem dropWhile_eq_self_of_head {α} (p : α → Bool) (l : List α)
    (h : ∀ a, l.head? = some a → p a = false) : l.dropWhile p = l := by
  cases l with
  | nil => rfl
  | cons x xs =>
    rw [List.dropWhile_cons, if_neg]
    simp [h x rfl]

/-- A non-empty prefix has the same head. -/
theorem isPrefix_head? {α} {l m : List α} (h : l <+: m) (a : α)
    (ha : l.head? = some a) : m.head? = some a := by
  obtain ⟨t, rfl⟩ := h
  cases l with
  | nil => simp at ha
  | cons x xs => simpa using ha

/-- Python `strip` is idempotent. -/
theorem stripData_idem (l : List Char) : stripData (stripData l) = stripData l := by
  unfold stripData
  have h1 : ((l.dropWhile isSp).rdropWhile isSp).dropWhile isSp
      = (l.dropWhile isSp).rdropWhile isSp := by
    apply dropWhile_eq_self_of_head
    intro a ha
    exact head?_dropWhile isSp l a
      (isPrefix_head? (List.rdropWhile_prefix isSp (l.dropWhile isSp)) a ha)
  rw [h1, List.rdropWhile_idempotent]

/-- `pyStrip` is idempotent. -/
theorem pyStrip_pyStrip (s : String) : pyStrip (pyStrip s) = pyStrip s :=
  congrArg String.mk (stripData_idem s.data)

/-- Stripping only removes characters. -/
theorem mem_stripData {c : Char} {l : List Char} (h : c ∈ stripData l) : c ∈ l :=
  (List.dropWhile_suffix isSp).sublist.subset
    ((List.rdropWhile_prefix isSp (l.dropWhile isSp)).sublist.subset h)

/-- `rdropWhile` and `rtakeWhile` split a list. -/
theorem rdropWhile_append_rtakeWhile {α} (p : α → Bool) (l : List α) :
    l.rdropWhile p ++ l.rtakeWhile p = l := by
  simp only [List.rdropWhile, List.rtakeWhile]
  rw [← List.reverse_append, List.takeWhile_append_dropWhile, List.reverse_reverse]

/-- A list is its stripped core surrounded by whitespace. -/
theorem stripData_decomp (l : List Char) :
    ∃ a b, l = a ++ stripData l ++ b ∧
      (∀ c ∈ a, isSp c = true) ∧ (∀ c ∈ b, isSp c = true) := by
  refine ⟨l.takeWhile isSp, (l.dropWhile isSp).rtakeWhile isSp, ?_, ?_, ?_⟩
  · conv_lhs => rw [← List.takeWhile_append_dropWhile (p := isSp) (l := l)]
    rw [stripData, List.append_assoc, rdropWhile_append_rtakeWhile]
  · intro c hc
    exact List.mem_takeWhile_imp hc
  · intro c hc
    exact List.mem_rtakeWhile_imp hc

/-- A whitespace-free non-empty infix survives removal of an all-whitespace
block on the left. -/
theorem infix_append_space_left {kw a m : List Char}
    (ha : ∀ c ∈ a, isSp c = true) (hkw : kw ≠ [])
    (hns : ∀ c ∈ kw, isSp c = false) (h : kw <:+: a ++ m) : kw <:+: m := by
  induction a with
  | nil => simpa using h
  | cons x a' ih =>
    have h' : kw <+: x :: (a' ++ m) ∨ kw <:+: a' ++ m := List.infix_cons_iff.mp (by simpa using h)
    rcases h' with hp | hi
    · cases kw with
      | nil => exact absurd rfl hkw
      | cons k0 kw' =>
        obtain ⟨t, ht⟩ := hp
        rw [List.cons_append] at ht
        have hk0 : k0 = x := by
          injection ht with h1 _
        have hf : isSp k0 = false := hns k0 (by simp)
        have htr : isSp x = true := ha x (by simp)
        rw [hk0, htr] at hf
        exact absurd hf (by simp)
    · exact ih (fun c hc => ha c (by simp [hc])) hi

/-- A whitespace-free non-empty infix survives removal of an all-whitespace
block on the right. -/
theorem infix_append_space_right {kw m b : List Char}
    (hb : ∀ c ∈ b, isSp c = true) (hkw : kw ≠ [])
    (hns : ∀ c ∈ kw, isSp c = false) (h : kw <:+: m ++ b) : kw <:+: m := by
  have h' : kw.reverse <:+: b.reverse ++ m.reverse := by
    have h2 := List.reverse_infix.mpr h
    simpa [List.reverse_append] using h2
  have h3 : kw.reverse <:+: m.reverse :=
    infix_append_space_left
      (fun c hc => hb c (List.mem_reverse.mp hc))
      (by simpa using hkw)
      (fun c hc => hns c (List.mem_reverse.mp hc)) h'
  exact List.reverse_infix.mp h3

/-- A whitespace-free non-empty infix of `a ++ m ++ b` with `a`, `b` all
whitespace is an infix of `m`. -/
theorem infix_middle {kw a m b : List Char}
    (ha : ∀ c ∈ a, isSp c = true) (hb : ∀ c ∈ b, isSp c = true)
    (hkw : kw ≠ []) (hns : ∀ c ∈ kw, isSp c = false)
    (h : kw <:+: a ++ m ++ b) : kw <:+: m := by
  have h1 : kw <:+: m ++ b :=
    infix_append_space_left ha hkw hns (by simpa [List.append_assoc] using h)
  exact infix_append_space_right hb hkw hns h1

/-- Lowercasing fixes whitespace characters. -/
theorem toLower_of_isSp {c : Char} (h : isSp c = true) : Char.toLower c = c := by
  have h4 : c = ' ' ∨ c = '\t' ∨ c = '\r' ∨ c = '\n' := by
    simpa [isSp, Char.isWhitespace, or_assoc] using h
  rcases h4 with rfl | rfl | rfl | rfl <;> decide

/-- `split('\n')` never returns an empty list (Python returns `['']`
on the empty string). -/
theorem splitNl_ne_nil (l : List Char) : splitNl l ≠ [] := by
  induction l with
  | nil => simp [splitNl]
  | cons c cs ih =>
    by_cases hc : c = '\n'
    · simp [splitNl, hc]
    · cases h : splitNl cs with
      | nil => exact absurd h ih
      | cons x xs => simp [splitNl, hc, h]

/-- No chunk produced by `split('\n')` contains a newline. -/
theorem mem_splitNl {m l : List Char} (hm : m ∈ splitNl l) : '\n' ∉ m := by
  induction l generalizing m with
  | nil =>
    simp [splitNl] at hm
    simp [hm]
  | cons c cs ih =>
    by_cases hc : c = '\n'
    · rw [splitNl, if_pos hc] at hm
      rcases List.mem_cons.mp hm with rfl | hmem
      · simp
      · exact ih hmem
    · cases h : splitNl cs with
      | nil => exact absurd h (splitNl_ne_nil cs)
      | cons x xs =>
        rw [splitNl, if_neg hc, h] at hm
        rcases List.mem_cons.mp hm with rfl | hmem
        · intro hin
          rcases List.mem_cons.mp hin with h1 | h2
          · exact hc h1.symm
          · exact ih (by rw [h]; exact List.mem_cons_self x xs) h2
        · exact ih (by rw [h]; exact List.mem_cons_of_mem _ hmem)

/-- `split('\n')` on a newline-free list yields that single chunk. -/
theorem splitNl_no_nl {l : List Char} (h : '\n' ∉ l) : splitNl l = [l] := by
  induction l with
  | nil => rfl
  | cons c cs ih =>
    have hc : c ≠ '\n' := fun hh => h (List.mem_cons.mpr (Or.inl hh.symm))
    have hcs : '\n' ∉ cs := fun hh => h (List.mem_cons_of_mem _ hh)
    rw [splitNl, if_neg hc, ih hcs]

/-- Splitting at an explicit newline after a newline-free block. -/
theorem splitNl_append {a b : List Char} (h : '\n' ∉ a) :
    splitNl (a ++ '\n' :: b) = a :: splitNl b := by
  induction a with
  | nil => simp [splitNl]
  | cons c a' ih =>
    have hc : c ≠ '\n' := fun hh => h (List.mem_cons.mpr (Or.inl hh.symm))
    have ha' : '\n' ∉ a' := fun hh => h (List.mem_cons_of_mem _ hh)
    rw [List.cons_append, splitNl, if_neg hc, ih ha']

/-- `split('\n')` is a left inverse of `'\n'.join` on non-empty lists of
newline-free chunks. -/
theorem splitNl_joinNl {parts : List (List Char)} (hne : parts ≠ [])
    (h : ∀ m ∈ parts, '\n' ∉ m) : splitNl (joinNl parts) = parts := by
  induction parts with
  | nil => exact absurd rfl hne
  | cons p ps ih =>
    cases ps with
    | nil => exact splitNl_no_nl (h p (List.mem_cons_self p []))
    | cons p' ps' =>
      rw [joinNl, splitNl_append (h p (List.mem_cons_self _ _)),
        ih (by simp) (fun m hm => h m (List.mem_cons_of_mem _ hm))]

/-- String-level roundtrip: splitting the join of non-empty list of
newline-free strings gives back the list. -/
theorem pySplitLines_pyJoinLines {L : List String} (hne : L ≠ [])
    (h : ∀ t ∈ L, '\n' ∉ t.data) : pySplitLines (pyJoinLines L) = L := by
  rw [pySplitLines, pyJoinLines]
  have hdata : (⟨joinNl (L.map String.data)⟩ : String).data = joinNl (L.map String.data) := rfl
  rw [hdata, splitNl_joinNl (by simpa using hne)
    (by intro m hm
        obtain ⟨t, ht, rfl⟩ := List.mem_map.mp hm
        exact h t ht)]
  rw [List.map_map]
  conv_rhs => rw [← List.map_id L]
  exact List.map_congr_left (fun t _ => rfl)

/-- A non-empty whitespace-free keyword found in the lowered line is
still found in the lowered stripped line. -/
theorem pyContains_lower_strip {l kw : String}
    (hk : kw.data ≠ []) (hns : ∀ c ∈ kw.data, isSp c = false)
    (h : pyContains (pyLower l) kw = true) :
    pyContains (pyLower (pyStrip l)) kw = true := by
  rw [pyContains, decide_eq_true_eq] at h ⊢
  obtain ⟨a, b, hdec, hA, hB⟩ := stripData_decomp l.data
  have hmap : (pyLower l).data
      = a.map Char.toLower ++ (stripData l.data).map Char.toLower ++ b.map Char.toLower := by
    show l.data.map Char.toLower = _
    conv_lhs => rw [hdec]
    simp [List.map_append]
  rw [hmap] at h
  have hcore : kw.data <:+: (stripData l.data).map Char.toLower := by
    refine infix_middle ?_ ?_ hk hns h
    · intro c hc
      obtain ⟨c0, hc0, rfl⟩ := List.mem_map.mp hc
      rw [toLower_of_isSp (hA c0 hc0)]
      exact hA c0 hc0
    · intro c hc
      obtain ⟨c0, hc0, rfl⟩ := List.mem_map.mp hc
      rw [toLower_of_isSp (hB c0 hc0)]
      exact hB c0 hc0
  exact hcore

/-- A non-empty whitespace-free keyword found in the line is still found
in the stripped line. -/
theorem pyContains_strip {l kw : String}
    (hk : kw.data ≠ []) (hns : ∀ c ∈ kw.data, isSp c = false)
    (h : pyContains l kw = true) :
    pyContains (pyStrip l) kw = true := by
  rw [pyContains, decide_eq_true_eq] at h ⊢
  obtain ⟨a, b, hdec, hA, hB⟩ := stripData_decomp l.data
  rw [hdec] at h
  exact infix_middle hA hB hk hns h

/-- Common shape of `_extract_findings`: strip every line, then filter on
the stripped value, then cap. -/
def extractMapFilter (cond : String → Bool) (n : Nat) (s : String) : List String :=
  (((pySplitLines s).map pyStrip).filter cond).take n

/-- Common shape of the keyword extractors: filter the raw lines, then
strip the kept ones, then cap. -/
def extractFilterMap (cond : String → Bool) (n : Nat) (s : String) : List String :=
  (((pySplitLines s).filter cond).map pyStrip).take n

/-- Lines produced by `split('\n')` contain no newline. -/
theorem mem_pySplitLines_no_nl {t s : String} (h : t ∈ pySplitLines s) :
    '\n' ∉ t.data := by
  obtain ⟨m, hm, rfl⟩ := List.mem_map.mp h
  exact mem_splitNl hm

/-- Every element of a strip-then-filter extraction is stripped,
newline-free and satisfies the filter. -/
theorem extractMapFilter_mem {cond : String → Bool} {n : Nat} {s t : String}
    (h : t ∈ extractMapFilter cond n s) :
    pyStrip t = t ∧ '\n' ∉ t.data ∧ cond t = true := by
  have h1 := List.mem_of_mem_take h
  have h2 := List.mem_filter.mp h1
  obtain ⟨line, hline, rfl⟩ := List.mem_map.mp h2.1
  refine ⟨pyStrip_pyStrip line, ?_, h2.2⟩
  intro hin
  exact mem_pySplitLines_no_nl hline (mem_stripData hin)

/-- Every element of a filter-then-strip extraction is stripped,
newline-free and (when the filter is stable under `strip`) satisfies the
filter. -/
theorem extractFilterMap_mem {cond : String → Bool} {n : Nat} {s t : String}
    (hstrip : ∀ l, cond l = true → cond (pyStrip l) = true)
    (h : t ∈ extractFilterMap cond n s) :
    pyStrip t = t ∧ '\n' ∉ t.data ∧ cond t = true := by
  have h1 := List.mem_of_mem_take h
  obtain ⟨line, hline, rfl⟩ := List.mem_map.mp h1
  have h2 := List.mem_filter.mp hline
  refine ⟨pyStrip_pyStrip line, ?_, hstrip line h2.2⟩
  intro hin
  exact mem_pySplitLines_no_nl h2.1 (mem_stripData hin)

/-- Re-running either extraction shape on a capped list of stripped,
newline-free lines all satisfying the filter returns the list unchanged. -/
theorem extract_idem_of_clean {cond : String → Bool} {n : Nat} {L : List String}
    (hlen : L.length ≤ n)
    (hmem : ∀ t ∈ L, pyStrip t = t ∧ '\n' ∉ t.data ∧ cond t = true)
    (hne : L ≠ []) :
    extractMapFilter cond n (pyJoinLines L) = L ∧
    extractFilterMap cond n (pyJoinLines L) = L := by
  have hsplit : pySplitLines (pyJoinLines L) = L :=
    pySplitLines_pyJoinLines hne (fun t ht => (hmem t ht).2.1)
  have hmapstrip : L.map pyStrip = L := by
    conv_rhs => rw [← List.map_id L]
    exact List.map_congr_left (fun t ht => (hmem t ht).1)
  have hfilter : L.filter cond = L :=
    List.filter_eq_self.mpr (fun t ht => (hmem t ht).2.2)
  constructor
  · rw [extractMapFilter, hsplit, hmapstrip, hfilter, List.take_of_length_le hlen]
  · rw [extractFilterMap, hsplit, hfilter, hmapstrip, List.take_of_length_le hlen]

/-- The strip-then-filter extraction shape is idempotent whenever the
filter rejects the empty string. -/
theorem extractMapFilter_idem (cond : String → Bool) (n : Nat)
    (hemp : cond "" = false) (s : String) :
    extractMapFilter cond n (pyJoinLines (extractMapFilter cond n s))
      = extractMapFilter cond n s := by
  by_cases hne : extractMapFilter cond n s = []
  · rw [hne]
    show (((pySplitLines (pyJoinLines [])).map pyStrip).filter cond).take n = []
    have h0 : pyJoinLines [] = "" := rfl
    have h1 : pySplitLines "" = [""] := rfl
    have h2 : pyStrip "" = "" := rfl
    rw [h0, h1]
    simp [h2, hemp]
  · exact (extract_idem_of_clean (List.length_take_le _ _)
      (fun t ht => extractMapFilter_mem ht) hne).1

/-- The filter-then-strip extraction shape is idempotent whenever the
filter rejects the empty string and is stable under `strip`. -/
theorem extractFilterMap_idem (cond : String → Bool) (n : Nat)
    (hemp : cond "" = false)
    (hstrip : ∀ l, cond l = true → cond (pyStrip l) = true) (s : String) :
    extractFilterMap cond n (pyJoinLines (extractFilterMap cond n s))
      = extractFilterMap cond n s := by
  by_cases hne : extractFilterMap cond n s = []
  · rw [hne]
    show (((pySplitLines (pyJoinLines [])).filter cond).map pyStrip).take n = []
    have h0 : pyJoinLines [] = "" := rfl
    have h1 : pySplitLines "" = [""] := rfl
    rw [h0, h1]
    simp [hemp]
  · exact (extract_idem_of_clean (List.length_take_le _ _)
      (fun t ht => extractFilterMap_mem hstrip ht) hne).2

/-- The hypothesis loop is the filter-then-strip pipeline. -/
theorem hypLoop_eq (ls : List String) :
    SynthesizerAgent.hypLoop ls = (ls.filter SynthesizerAgent.hypKeep).map pyStrip := by
  induction ls with
  | nil => rfl
  | cons x xs ih =>
    by_cases hx : SynthesizerAgent.hypKeep x = true <;>
      simp [SynthesizerAgent.hypLoop, List.filter_cons, hx, ih]

/-- The insight loop is the filter-then-strip pipeline. -/
theorem insLoop_eq (ls : List String) :
    SynthesizerAgent.insLoop ls = (ls.filter SynthesizerAgent.insKeep).map pyStrip := by
  induction ls with
  | nil => rfl
  | cons x xs ih =>
    by_cases hx : SynthesizerAgent.insKeep x = true <;>
      simp [SynthesizerAgent.insLoop, List.filter_cons, hx, ih]

/-- The gap loop is the filter-then-strip pipeline. -/
theorem gapLoop_eq (ls : List String) :
    QuestionerAgent.gapLoop ls = (ls.filter QuestionerAgent.gapKeep).map pyStrip := by
  induction ls with
  | nil => rfl
  | cons x xs ih =>
    by_cases hx : QuestionerAgent.gapKeep x = true <;>
      simp [QuestionerAgent.gapLoop, List.filter_cons, hx, ih]

/-- The question loop is the filter-then-strip pipeline. -/
theorem questionLoop_eq (ls : List String) :
    QuestionerAgent.questionLoop ls = (ls.filter QuestionerAgent.questionKeep).map pyStrip := by
  induction ls with
  | nil => rfl
  | cons x xs ih =>
    by_cases hx : QuestionerAgent.questionKeep x = true <;>
      simp [QuestionerAgent.questionLoop, List.filter_cons, hx, ih]

/-- The hypothesis keyword test survives stripping. -/
theorem hypKeyword_strip {l : String} (h : SynthesizerAgent.hypKeyword l = true) :
    SynthesizerAgent.hypKeyword (pyStrip l) = true := by
  simp only [SynthesizerAgent.hypKeyword, Bool.or_eq_true] at h ⊢
  rcases h with ((h | h) | h) | h
  · exact Or.inl (Or.inl (Or.inl (pyContains_lower_strip (by decide) (by decide) h)))
  · exact Or.inl (Or.inl (Or.inr (pyContains_lower_strip (by decide) (by decide) h)))
  · exact Or.inl (Or.inr (pyContains_lower_strip (by decide) (by decide) h))
  · exact Or.inr (pyContains_lower_strip (by decide) (by decide) h)

/-- The hypothesis keep test survives stripping. -/
theorem hypKeep_strip (l : String) (h : SynthesizerAgent.hypKeep l = true) :
    SynthesizerAgent.hypKeep (pyStrip l) = true := by
  rw [SynthesizerAgent.hypKeep, Bool.and_eq_true] at h ⊢
  exact ⟨hypKeyword_strip h.1, by rw [pyStrip_pyStrip]; exact h.2⟩

/-- The insight keyword test survives stripping. -/
theorem insKeyword_strip {l : String} (h : SynthesizerAgent.insKeyword l = true) :
    SynthesizerAgent.insKeyword (pyStrip l) = true := by
  simp only [SynthesizerAgent.insKeyword, Bool.or_eq_true] at h ⊢
  rcases h with (h | h) | h
  · exact Or.inl (Or.inl (pyContains_lower_strip (by decide) (by decide) h))
  · exact Or.inl (Or.inr (pyContains_lower_strip (by decide) (by decide) h))
  · exact Or.inr (pyContains_lower_strip (by decide) (by decide) h)

/-- The insight keep test survives stripping. -/
theorem insKeep_strip (l : String) (h : SynthesizerAgent.insKeep l = true) :
    SynthesizerAgent.insKeep (pyStrip l) = true := by
  rw [SynthesizerAgent.insKeep, Bool.and_eq_true, Bool.and_eq_true] at h ⊢
  refine ⟨⟨insKeyword_strip h.1.1, ?_⟩, ?_⟩ <;> rw [pyStrip_pyStrip]
  · exact h.1.2
  · exact h.2

/-- The gap keep test survives stripping. -/
theorem gapKeep_strip (l : String) (h : QuestionerAgent.gapKeep l = true) :
    QuestionerAgent.gapKeep (pyStrip l) = true := by
  rw [QuestionerAgent.gapKeep, Bool.and_eq_true, Bool.and_eq_true] at h ⊢
  refine ⟨⟨pyContains_lower_strip (by decide) (by decide) h.1.1, ?_⟩, ?_⟩ <;>
    rw [pyStrip_pyStrip]
  · exact h.1.2
  · exact h.2

/-- The question keep test survives stripping. -/
theorem questionKeep_strip (l : String) (h : QuestionerAgent.questionKeep l = true) :
    QuestionerAgent.questionKeep (pyStrip l) = true := by
  rw [QuestionerAgent.questionKeep, Bool.and_eq_true, Bool.and_eq_true] at h ⊢
  refine ⟨⟨pyContains_strip (by decide) (by decide) h.1.1, ?_⟩, ?_⟩ <;>
    rw [pyStrip_pyStrip]
  · exact h.1.2
  · exact h.2

/-- C5 counterexample: the Reviewer's section extraction is not
idempotent.  On `"Strengths - overview\n- good methodology"` the header
line turns the flag on but is not itself collected (it is not a bullet
line); re-running the heuristic on the joined output, no line contains
the section keyword any more, so the result is `[]` instead of the
original one-element list. -/
theorem c5_counterexample :
    ReviewerAgent.extract_section
        (pyJoinLines (ReviewerAgent.extract_section
          "Strengths - overview\n- good methodology" "strengths")) "strengths"
      ≠ ReviewerAgent.extract_section
          "Strengths - overview\n- good methodology" "strengths" := by
  decide

/-- C5 (amended): every extraction heuristic except the Reviewer's
section extraction is idempotent: re-running it on the newline-join of
its own (already stripped, already capped) output returns that output
unchanged.  The section extraction is excluded — see the
counterexample. -/
theorem c5_extraction_idempotent (s : String) :
    ResearcherAgent.extract_findings
        (pyJoinLines (ResearcherAgent.extract_findings s))
      = ResearcherAgent.extract_findings s ∧
    SynthesizerAgent.extract_hypotheses
        (pyJoinLines (SynthesizerAgent.extract_hypotheses s))
      = SynthesizerAgent.extract_hypotheses s ∧
    SynthesizerAgent.extract_insights
        (pyJoinLines (SynthesizerAgent.extract_insights s))
      = SynthesizerAgent.extract_insights s ∧
    QuestionerAgent.extract_gaps
        (pyJoinLines (QuestionerAgent.extract_gaps s))
      = QuestionerAgent.extract_gaps s ∧
    QuestionerAgent.extract_questions
        (pyJoinLines (QuestionerAgent.extract_questions s))
      = QuestionerAgent.extract_questions s := by
  have hhyp : ∀ u, SynthesizerAgent.extract_hypotheses u
      = extractFilterMap SynthesizerAgent.hypKeep 5 u := by
    intro u
    rw [SynthesizerAgent.extract_hypotheses, hypLoop_eq]
    rfl
  have hins : ∀ u, SynthesizerAgent.extract_insights u
      = extractFilterMap SynthesizerAgent.insKeep 5 u := by
    intro u
    rw [SynthesizerAgent.extract_insights, insLoop_eq]
    rfl
  have hgap : ∀ u, QuestionerAgent.extract_gaps u
      = extractFilterMap QuestionerAgent.gapKeep 5 u := by
    intro u
    rw [QuestionerAgent.extract_gaps, gapLoop_eq]
    rfl
  have hq : ∀ u, QuestionerAgent.extract_questions u
      = extractFilterMap QuestionerAgent.questionKeep 7 u := by
    intro u
    rw [QuestionerAgent.extract_questions, questionLoop_eq]
    rfl
  refine ⟨?_, ?_, ?_, ?_, ?_⟩
  · exact extractMapFilter_idem ResearcherAgent.findingsKeep 10 (by decide) s
  · simp only [hhyp]
    exact extractFilterMap_idem _ 5 (by decide) hypKeep_strip s
  · simp only [hins]
    exact extractFilterMap_idem _ 5 (by decide) insKeep_strip s
  · simp only [hgap]
    exact extractFilterMap_idem _ 5 (by decide) gapKeep_strip s
  · simp only [hq]
    exact extractFilterMap_idem _ 7 (by decide) questionKeep_strip s

/-- The hypothesis-extraction rule exactly as the claim states it ("an
H<digit> label (for any digit)"): keep lines containing "hypothesis"
(case-insensitive) or `h0`..`h9`, with stripped length > 20; strip;
cap at 5.  Written from the claim's words, for comparison with the
code's `extract_hypotheses`. -/
def specHypothesesClaim (s : String) : List String :=
  (((pySplitLines s).filter (fun line =>
      (pyContains (pyLower line) "hypothesis" ||
        pyContains (pyLower line) "h0" || pyContains (pyLower line) "h1" ||
        pyContains (pyLower line) "h2" || pyContains (pyLower line) "h3" ||
        pyContains (pyLower line) "h4" || pyContains (pyLower line) "h5" ||
        pyContains (pyLower line) "h6" || pyContains (pyLower line) "h7" ||
        pyContains (pyLower line) "h8" || pyContains (pyLower line) "h9") &&
      decide (pyLen (pyStrip line) > 20))).map pyStrip).take 5

/-- The amended rule: only the labels `h1`, `h2`, `h3` (case-insensitive)
are recognised, besides the word "hypothesis"; stripped length > 20;
cap at 5. -/
def specHypothesesAmended (s : String) : List String :=
  (((pySplitLines s).filter (fun line =>
      (pyContains (pyLower line) "hypothesis" ||
        pyContains (pyLower line) "h1" || pyContains (pyLower line) "h2" ||
        pyContains (pyLower line) "h3") &&
      decide (pyLen (pyStrip line) > 20))).map pyStrip).take 5

/-- C7 counterexample: a line labelled `H4` (and long enough) is kept by
the claimed "any digit" rule but dropped by the code, which only checks
`h1`, `h2` and `h3`. -/
theorem c7_counterexample :
    SynthesizerAgent.extract_hypotheses
        "H4: treatment dosage strongly affects recovery time"
      ≠ specHypothesesClaim
        "H4: treatment dosage strongly affects recovery time" := by
  decide

/-- The full keep test is the keyword test plus the length test alone:
`len(strip) > 20` already implies the stripped line is truthy. -/
theorem hypKeep_eq (line : String) :
    SynthesizerAgent.hypKeep line
      = (SynthesizerAgent.hypKeyword line && decide (pyLen (pyStrip line) > 20)) := by
  rw [SynthesizerAgent.hypKeep]
  by_cases h : pyLen (pyStrip line) > 20
  · have hne : (pyStrip line).data ≠ [] := by
      intro h0
      rw [pyLen, h0] at h
      simp at h
    have ht : pyTruthy (pyStrip line) = true := by
      simp [pyTruthy, hne]
    simp [ht, h]
  · simp [h]

/-- C7 (amended): the Synthesizer's hypothesis extraction keeps exactly
the lines containing "hypothesis" or an `H1`/`H2`/`H3` label
(case-insensitive) whose stripped length exceeds 20, stripped, capped
at 5 — the claimed "any digit" is amended to the digits 1–3. -/
theorem c7_hypothesis_rule (s : String) :
    SynthesizerAgent.extract_hypotheses s = specHypothesesAmended s := by
  rw [SynthesizerAgent.extract_hypotheses, hypLoop_eq, specHypothesesAmended]
  have hf : (pySplitLines s).filter SynthesizerAgent.hypKeep
      = (pySplitLines s).filter (fun line =>
          (pyContains (pyLower line) "hypothesis" ||
            pyContains (pyLower line) "h1" || pyContains (pyLower line) "h2" ||
            pyContains (pyLower line) "h3") &&
          decide (pyLen (pyStrip line) > 20)) := by
    apply List.filter_congr
    intro a _
    rw [hypKeep_eq]
    rfl
  rw [hf]

/-- Checked access to `line[0]`: `none` when the string is empty. -/
def headCharChecked (s : String) : Option Char := s.data.head?

/-- `headerMatch` with every `[0]` access checked, mirroring Python's
short-circuit order: the index is only reached when the guard
`line.strip()` was truthy. -/
def headerMatchChecked (sec line : String) : Option Bool :=
  if pyContains (pyLower line) (pyLower sec) then
    if pyTruthy (pyStrip line) then
      if pyContains line "-" then some true
      else (headCharChecked line).map Char.isDigit
    else some false
  else some false

/-- `bulletLine` with every `[0]` access checked. -/
def bulletLineChecked (line : String) : Option Bool :=
  if pyTruthy (pyStrip line) then
    if pyStartsWith (pyStrip line) "-" then some true
    else if pyTruthy (pyStrip line) then
      (headCharChecked (pyStrip line)).map Char.isDigit
    else some false
  else some false

/-- `breakLine` with every `[0]` access checked. -/
def breakLineChecked (line : String) : Option Bool :=
  if pyTruthy (pyStrip line) then
    (headCharChecked (pyStrip line)).map (fun c =>
      !c.isDigit && !pyContains line "-" && decide (pyLen (pyStrip line) > 50))
  else some false

/-- The section loop with checked indexing: `none` would signal an
out-of-bounds `[0]` somewhere. -/
def sectionLoopChecked (sec : String) :
    List String → Bool → List String → Option (List String)
  | [], _, acc => some acc
  | line :: rest, inSec, acc =>
    match headerMatchChecked sec line with
    | none => none
    | some hm =>
      let inSec' := inSec || hm
      if inSec' then
        match bulletLineChecked line with
        | none => none
        | some bl =>
          if bl then sectionLoopChecked sec rest inSec' (acc ++ [pyStrip line])
          else
            match breakLineChecked line with
            | none => none
            | some brk =>
              if brk then some acc else sectionLoopChecked sec rest inSec' acc
      else sectionLoopChecked sec rest inSec' acc

/-- `_extract_section` with checked indexing. -/
def extract_sectionChecked (text sec : String) : Option (List String) :=
  (sectionLoopChecked sec (pySplitLines text) false []).map (fun l => l.take 5)

/-- A truthy stripped line means the raw line is non-empty. -/
theorem data_ne_of_pyTruthy_strip {line : String}
    (h : pyTruthy (pyStrip line) = true) : line.data ≠ [] := by
  intro h0
  have hs : stripData line.data = [] := by
    rw [h0]
    simp [stripData]
  rw [pyTruthy] at h
  have : (pyStrip line).data = [] := hs
  rw [this] at h
  simp at h

/-- A truthy string has a non-empty character list. -/
theorem data_ne_of_pyTruthy {s : String} (h : pyTruthy s = true) : s.data ≠ [] := by
  rw [pyTruthy] at h
  simpa using h

/-- The checked header test never fails and agrees with the code. -/
theorem headerMatchChecked_eq (sec line : String) :
    headerMatchChecked sec line = some (ReviewerAgent.headerMatch sec line) := by
  rw [headerMatchChecked, ReviewerAgent.headerMatch]
  by_cases h1 : pyContains (pyLower line) (pyLower sec) = true
  · by_cases h2 : pyTruthy (pyStrip line) = true
    · by_cases h3 : pyContains line "-" = true
      · simp [h1, h2, h3]
      · have hne := data_ne_of_pyTruthy_strip h2
        cases hd : line.data with
        | nil => exact absurd hd hne
        | cons c cs =>
          simp [h1, h2, h3, headCharChecked, headIsDigit, hd]
    · simp [h1, h2]
  · simp [h1]

/-- The checked bullet test never fails and agrees with the code. -/
theorem bulletLineChecked_eq (line : String) :
    bulletLineChecked line = some (ReviewerAgent.bulletLine line) := by
  rw [bulletLineChecked, ReviewerAgent.bulletLine]
  by_cases h1 : pyTruthy (pyStrip line) = true
  · by_cases h2 : pyStartsWith (pyStrip line) "-" = true
    · simp [h1, h2]
    · have hne := data_ne_of_pyTruthy h1
      cases hd : (pyStrip line).data with
      | nil => exact absurd hd hne
      | cons c cs =>
        simp [h1, h2, headCharChecked, headIsDigit, hd]
  · simp [h1]

/-- The checked break test never fails and agrees with the code. -/
theorem breakLineChecked_eq (line : String) :
    breakLineChecked line = some (ReviewerAgent.breakLine line) := by
  rw [breakLineChecked, ReviewerAgent.breakLine]
  by_cases h1 : pyTruthy (pyStrip line) = true
  · have hne := data_ne_of_pyTruthy h1
    cases hd : (pyStrip line).data with
    | nil => exact absurd hd hne
    | cons c cs =>
      simp [h1, headCharChecked, headIsDigit, hd]
  · simp [h1]

/-- The checked loop never fails and agrees with the code. -/
theorem sectionLoopChecked_eq (sec : String) (ls : List String) :
    ∀ inSec acc, sectionLoopChecked sec ls inSec acc
      = some (ReviewerAgent.sectionLoop sec ls inSec acc) := by
  induction ls with
  | nil => intro inSec acc; rfl
  | cons line rest ih =>
    intro inSec acc
    rw [sectionLoopChecked, ReviewerAgent.sectionLoop, headerMatchChecked_eq,
      bulletLineChecked_eq, breakLineChecked_eq]
    by_cases h1 : (inSec || ReviewerAgent.headerMatch sec line) = true
    · by_cases h2 : ReviewerAgent.bulletLine line = true
      · simp [h1, h2, ih]
      · by_cases h3 : ReviewerAgent.breakLine line = true
        · simp [h1, h2, h3]
        · simp [h1, h2, h3, ih]
    · simp [h1, ih]

/-- C10: the Reviewer's section extraction is a total function — with
every `line[0]` / `line.strip()[0]` access modelled as a checked access,
on every input (empty lines, whitespace lines, punctuation-initial lines
included) the checked extraction returns `some` of the unchecked result,
never an out-of-bounds failure. -/
theorem c10_extract_section_total (text sec : String) :
    extract_sectionChecked text sec = some (ReviewerAgent.extract_section text sec) := by
  rw [extract_sectionChecked, ReviewerAgent.extract_section, sectionLoopChecked_eq]
  rfl

/-- C2: if the Researcher-stage retrieval returns zero sources, the run
terminates with status `"error"`, an error message naming the
Researcher, an execution log of exactly one entry, and no later stage's
slot ever filled. -/
theorem c2_empty_retrieval_halts (q ans : String) (gR : GenB) (rV : RetB)
    (gV : GenB) (rS : RetB) (gS : GenB) (rQ : RetB) (gQ : GenB) (gF : GenB) :
    (MultiAgentResearchSystem.run_research_workflow q
        ⟨.ok ⟨ans, []⟩, gR, rV, gV, rS, gS, rQ, gQ, gF⟩).status = "error" ∧
    (MultiAgentResearchSystem.run_research_workflow q
        ⟨.ok ⟨ans, []⟩, gR, rV, gV, rS, gS, rQ, gQ, gF⟩).workflow.length = 1 ∧
    (MultiAgentResearchSystem.run_research_workflow q
        ⟨.ok ⟨ans, []⟩, gR, rV, gV, rS, gS, rQ, gQ, gF⟩).error
      = some "Researcher agent failed: No relevant documents found" ∧
    (MultiAgentResearchSystem.run_research_workflow q
        ⟨.ok ⟨ans, []⟩, gR, rV, gV, rS, gS, rQ, gQ, gF⟩).reviewer = none ∧
    (MultiAgentResearchSystem.run_research_workflow q
        ⟨.ok ⟨ans, []⟩, gR, rV, gV, rS, gS, rQ, gQ, gF⟩).synthesizer = none ∧
    (MultiAgentResearchSystem.run_research_workflow q
        ⟨.ok ⟨ans, []⟩, gR, rV, gV, rS, gS, rQ, gQ, gF⟩).questioner = none ∧
    (MultiAgentResearchSystem.run_research_workflow q
        ⟨.ok ⟨ans, []⟩, gR, rV, gV, rS, gS, rQ, gQ, gF⟩).formatter = none := by
  refine ⟨?_, ?_, ?_, ?_, ?_, ?_, ?_⟩ <;>
    simp [MultiAgentResearchSystem.run_research_workflow, ResearcherAgent.process,
      failMsg] <;> rfl

/-- An earlier stage's slot is filled and reports success. -/
def prevOk (o : Option AgentResult) : Prop :=
  o.isSome = true ∧ ∀ r, o = some r → r.status = "success"

/-- C3: whenever a stored stage result has a non-`success` status, the
run's record has status `"error"`, its error message names the failing
agent and embeds that agent's own message, every later stage's slot is
still empty (the orchestrator returned immediately), and every earlier
stage's stored result reports success. -/
theorem c3_fail_fast (q : String) (b : Behaviors) (w : WorkflowData)
    (hw : MultiAgentResearchSystem.run_research_workflow q b = w) :
    (∀ r, w.researcher = some r → r.status ≠ "success" →
      w.status = "error" ∧ w.error = some (failMsg "Researcher" r) ∧
      w.reviewer = none ∧ w.synthesizer = none ∧ w.questioner = none ∧
      w.formatter = none) ∧
    (∀ r, w.reviewer = some r → r.status ≠ "success" →
      w.status = "error" ∧ w.error = some (failMsg "Reviewer" r) ∧
      prevOk w.researcher ∧
      w.synthesizer = none ∧ w.questioner = none ∧ w.formatter = none) ∧
    (∀ r, w.synthesizer = some r → r.status ≠ "success" →
      w.status = "error" ∧ w.error = some (failMsg "Synthesizer" r) ∧
      prevOk w.researcher ∧ prevOk w.reviewer ∧
      w.questioner = none ∧ w.formatter = none) ∧
    (∀ r, w.questioner = some r → r.status ≠ "success" →
      w.status = "error" ∧ w.error = some (failMsg "Questioner" r) ∧
      prevOk w.researcher ∧ prevOk w.reviewer ∧ prevOk w.synthesizer ∧
      w.formatter = none) ∧
    (∀ r, w.formatter = some r → r.status ≠ "success" →
      w.status = "error" ∧ w.error = some (failMsg "Formatter" r) ∧
      prevOk w.researcher ∧ prevOk w.reviewer ∧ prevOk w.synthesizer ∧
      prevOk w.questioner) := by
  subst hw
  rw [MultiAgentResearchSystem.run_research_workflow]
  rcases hR : ResearcherAgent.process q b.retResearcher b.genResearcher with e | ⟨rout, nR⟩
  · refine ⟨?_, ?_, ?_, ?_, ?_⟩ <;> intro r hr hst <;> simp_all
  · by_cases hrs : rout.status = "success"
    · rcases hV : ReviewerAgent.process rout q b.retReviewer b.genReviewer with e | ⟨vout, nV⟩
      · refine ⟨?_, ?_, ?_, ?_, ?_⟩ <;> intro r hr hst <;> simp_all
      · by_cases hvs : vout.status = "success"
        · rcases hS : SynthesizerAgent.process vout q b.retSynthesizer b.genSynthesizer
            with e | ⟨sout, nS⟩
          · refine ⟨?_, ?_, ?_, ?_, ?_⟩ <;> intro r hr hst <;> simp_all [prevOk]
          · by_cases hss : sout.status = "success"
            · rcases hQ : QuestionerAgent.process sout q b.retQuestioner b.genQuestioner
                with e | ⟨qout, nQ⟩
              · refine ⟨?_, ?_, ?_, ?_, ?_⟩ <;> intro r hr hst <;> simp_all [prevOk]
              · by_cases hqs : qout.status = "success"
                · cases hgF : b.genFormatter with
                  | ok t =>
                    refine ⟨?_, ?_, ?_, ?_, ?_⟩ <;> intro r hr hst <;>
                      simp_all [prevOk, FormatterAgent.process]
                  | error e =>
                    refine ⟨?_, ?_, ?_, ?_, ?_⟩ <;> intro r hr hst <;>
                      simp_all [prevOk, FormatterAgent.process, failMsg]
                · refine ⟨?_, ?_, ?_, ?_, ?_⟩ <;> intro r hr hst <;> simp_all [prevOk]
            · refine ⟨?_, ?_, ?_, ?_, ?_⟩ <;> intro r hr hst <;> simp_all [prevOk]
        · refine ⟨?_, ?_, ?_, ?_, ?_⟩ <;> intro r hr hst <;> simp_all [prevOk]
    · refine ⟨?_, ?_, ?_, ?_, ?_⟩ <;> intro r hr hst <;> simp_all

/-- C8: the orchestrator never lets an exception escape: whatever the
collaborators do, the run returns a record whose status is `"success"`
or `"error"` (never `"in_progress"`), error implies a recorded message,
and when a stage's retrieval raises (the only calls outside the
per-agent catch) the raised description itself is recorded as the
error, with status `"error"`. -/
theorem c8_no_escape (q : String) (b : Behaviors) (w : WorkflowData)
    (hw : MultiAgentResearchSystem.run_research_workflow q b = w) :
    (w.status = "success" ∨ w.status = "error") ∧
    (w.status = "error" → w.error.isSome = true) ∧
    (∀ e, b.retResearcher = .error e → w.status = "error" ∧ w.error = some e) ∧
    (∀ e ctx t, b.retResearcher = .ok ctx → ctx.sources ≠ [] →
      b.genResearcher = .ok t → b.retReviewer = .error e →
      w.status = "error" ∧ w.error = some e) ∧
    (∀ e ctx t ctx2 t2, b.retResearcher = .ok ctx → ctx.sources ≠ [] →
      b.genResearcher = .ok t → b.retReviewer = .ok ctx2 → b.genReviewer = .ok t2 →
      b.retSynthesizer = .error e →
      w.status = "error" ∧ w.error = some e) ∧
    (∀ e ctx t ctx2 t2 ctx3 t3, b.retResearcher = .ok ctx → ctx.sources ≠ [] →
      b.genResearcher = .ok t → b.retReviewer = .ok ctx2 → b.genReviewer = .ok t2 →
      b.retSynthesizer = .ok ctx3 → b.genSynthesizer = .ok t3 →
      b.retQuestioner = .error e →
      w.status = "error" ∧ w.error = some e) := by
  subst hw
  refine ⟨?_, ?_, ?_, ?_, ?_, ?_⟩
  · rw [MultiAgentResearchSystem.run_research_workflow]
    rcases hR : ResearcherAgent.process q b.retResearcher b.genResearcher with e | ⟨rout, nR⟩
    · simp
    · by_cases hrs : rout.status = "success"
      · rcases hV : ReviewerAgent.process rout q b.retReviewer b.genReviewer with e | ⟨vout, nV⟩
        · simp_all
        · by_cases hvs : vout.status = "success"
          · rcases hS : SynthesizerAgent.process vout q b.retSynthesizer b.genSynthesizer
              with e | ⟨sout, nS⟩
            · simp_all
            · by_cases hss : sout.status = "success"
              · rcases hQ : QuestionerAgent.process sout q b.retQuestioner b.genQuestioner
                  with e | ⟨qout, nQ⟩
                · simp_all
                · by_cases hqs : qout.status = "success"
                  · cases hgF : b.genFormatter with
                    | ok t => simp_all [FormatterAgent.process]
                    | error e => simp_all [FormatterAgent.process]
                  · simp_all
              · simp_all
          · simp_all
      · simp_all
  · rw [MultiAgentResearchSystem.run_research_workflow]
    rcases hR : ResearcherAgent.process q b.retResearcher b.genResearcher with e | ⟨rout, nR⟩
    · simp
    · by_cases hrs : rout.status = "success"
      · rcases hV : ReviewerAgent.process rout q b.retReviewer b.genReviewer with e | ⟨vout, nV⟩
        · simp_all
        · by_cases hvs : vout.status = "success"
          · rcases hS : SynthesizerAgent.process vout q b.retSynthesizer b.genSynthesizer
              with e | ⟨sout, nS⟩
            · simp_all
            · by_cases hss : sout.status = "success"
              · rcases hQ : QuestionerAgent.process sout q b.retQuestioner b.genQuestioner
                  with e | ⟨qout, nQ⟩
                · simp_all
                · by_cases hqs : qout.status = "success"
                  · cases hgF : b.genFormatter with
                    | ok t => simp_all [FormatterAgent.process]
                    | error e => simp_all [FormatterAgent.process]
                  · simp_all
              · simp_all
          · simp_all
      · simp_all
  · intro e h
    rw [MultiAgentResearchSystem.run_research_workflow]
    simp [ResearcherAgent.process, h]
  · intro e ctx t h1 h2 h3 h4
    have h2' : ctx.sources.isEmpty = false := by
      simpa [List.isEmpty_iff] using h2
    rw [MultiAgentResearchSystem.run_research_workflow]
    simp [ResearcherAgent.process, ReviewerAgent.process, h1, h2', h3, h4]
  · intro e ctx t ctx2 t2 h1 h2 h3 h4 h5 h6
    have h2' : ctx.sources.isEmpty = false := by
      simpa [List.isEmpty_iff] using h2
    rw [MultiAgentResearchSystem.run_research_workflow]
    simp [ResearcherAgent.process, ReviewerAgent.process, SynthesizerAgent.process,
      h1, h2', h3, h4, h5, h6]
  · intro e ctx t ctx2 t2 ctx3 t3 h1 h2 h3 h4 h5 h6 h7 h8
    have h2' : ctx.sources.isEmpty = false := by
      simpa [List.isEmpty_iff] using h2
    rw [MultiAgentResearchSystem.run_research_workflow]
    simp [ResearcherAgent.process, ReviewerAgent.process, SynthesizerAgent.process,
      QuestionerAgent.process, h1, h2', h3, h4, h5, h6, h7, h8]

/-- Witness for `c3_fail_fast`: the Reviewer's generation raises
`"boom"`; the run stops there, the error names the Reviewer and embeds
`"boom"`, and the Synthesizer slot stays empty. -/
theorem c3_fail_fast_witness :
    (MultiAgentResearchSystem.run_research_workflow "q"
        ⟨.ok ⟨"ans", [⟨"s.pdf", none⟩]⟩, .ok "- finding", .ok ⟨"a2", []⟩, .error "boom",
         .ok ⟨"a3", []⟩, .ok "syn", .ok ⟨"a4", []⟩, .ok "gaps", .ok "report"⟩).status
      = "error" ∧
    (MultiAgentResearchSystem.run_research_workflow "q"
        ⟨.ok ⟨"ans", [⟨"s.pdf", none⟩]⟩, .ok "- finding", .ok ⟨"a2", []⟩, .error "boom",
         .ok ⟨"a3", []⟩, .ok "syn", .ok ⟨"a4", []⟩, .ok "gaps", .ok "report"⟩).error
      = some "Reviewer agent failed: boom" ∧
    (MultiAgentResearchSystem.run_research_workflow "q"
        ⟨.ok ⟨"ans", [⟨"s.pdf", none⟩]⟩, .ok "- finding", .ok ⟨"a2", []⟩, .error "boom",
         .ok ⟨"a3", []⟩, .ok "syn", .ok ⟨"a4", []⟩, .ok "gaps", .ok "report"⟩).synthesizer
      = none := by
  have h := c3_fail_fast "q"
    ⟨.ok ⟨"ans", [⟨"s.pdf", none⟩]⟩, .ok "- finding", .ok ⟨"a2", []⟩, .error "boom",
     .ok ⟨"a3", []⟩, .ok "syn", .ok ⟨"a4", []⟩, .ok "gaps", .ok "report"⟩ _ rfl
  exact ⟨(h.2.1 _ rfl (by decide)).1, (h.2.1 _ rfl (by decide)).2.1,
    (h.2.1 _ rfl (by decide)).2.2.2.1⟩

/-- Witness for `c8_no_escape`: the Reviewer's retrieval raises
`"kaboom"` outside the per-agent catch; the run still returns, with
status `"error"` and the description recorded. -/
theorem c8_no_escape_witness :
    (MultiAgentResearchSystem.run_research_workflow "q"
        ⟨.ok ⟨"ans", [⟨"s.pdf", none⟩]⟩, .ok "text", .error "kaboom", .ok "crit",
         .ok ⟨"a", []⟩, .ok "syn", .ok ⟨"a", []⟩, .ok "gaps", .ok "rep"⟩).status
      = "error" ∧
    (MultiAgentResearchSystem.run_research_workflow "q"
        ⟨.ok ⟨"ans", [⟨"s.pdf", none⟩]⟩, .ok "text", .error "kaboom", .ok "crit",
         .ok ⟨"a", []⟩, .ok "syn", .ok ⟨"a", []⟩, .ok "gaps", .ok "rep"⟩).error
      = some "kaboom" := by
  have h := c8_no_escape "q"
    ⟨.ok ⟨"ans", [⟨"s.pdf", none⟩]⟩, .ok "text", .error "kaboom", .ok "crit",
     .ok ⟨"a", []⟩, .ok "syn", .ok ⟨"a", []⟩, .ok "gaps", .ok "rep"⟩ _ rfl
  exact h.2.2.2.1 "kaboom" ⟨"ans", [⟨"s.pdf", none⟩]⟩ "text" rfl (by decide) rfl rfl
